import Mathlib

/-!
ChatAI screen (`src/App.js`): a state-machine model of the `App` component.

The component owns four `useState` cells (`messages`, `input`, `isLoading`,
`darkMode`) and one animated value (`fadeAnim`).  Its handlers are embedded as
functions on an explicit `State` record.  `handleSend` is an `async` function:
the part before the first `await` is `handleSend`, the part that runs once the
awaited network call has settled is `handleSendResume`; the suspended
continuation (with the `newMessages` array it closed over) is kept in
`State.inFlight` in between.

Modelling conventions
* every handler invocation reads the state committed by the latest render;
* JavaScript strings are modelled by `String`; every character removed by
  `String.prototype.trim` lies in the Basic Multilingual Plane, so trimming
  code units and trimming code points agree;
* the two `await`s of `handleSend` write no state between them, so the
  settlement of the network call is one step.
-/

namespace ChatApp

/-! ## JavaScript values -/

/-- A JavaScript number as far as this program observes it: a finite value
(both zeros are `finite 0`), an infinity, or NaN. -/
inductive JsNumber where
  | finite (q : Rat)
  | posInf
  | negInf
  | nan

/-- The relational operator `a > b` on numbers (false when either is NaN). -/
def JsNumber.gt : JsNumber → JsNumber → Bool
  | .nan, _ => false
  | _, .nan => false
  | .finite a, .finite b => decide (b < a)
  | .finite _, .posInf => false
  | .finite _, .negInf => true
  | .posInf, .posInf => false
  | .posInf, _ => true
  | .negInf, _ => false

/-- The relational operator `a <= b` on numbers (false when either is NaN). -/
def JsNumber.le : JsNumber → JsNumber → Bool
  | .nan, _ => false
  | _, .nan => false
  | .finite a, .finite b => decide (a ≤ b)
  | .finite _, .posInf => true
  | .finite _, .negInf => false
  | .posInf, .posInf => true
  | .posInf, _ => false
  | .negInf, _ => true

/-- A value produced by `JSON.parse` (what `response.json()` resolves to).
An object keeps its members in source order; duplicates may occur. -/
inductive Json where
  | null
  | bool (b : Bool)
  | num (n : JsNumber)
  | str (s : String)
  | arr (items : List Json)
  | obj (members : List (String × Json))

/-- Errors that can be thrown inside the `try` block of `handleSend`. -/
inductive JsError where
  | networkError
  | syntaxError
  | typeError

/-- The result of `ToBoolean` on a number: false for zero and NaN. -/
def JsNumber.truthy : JsNumber → Bool
  | .finite q => decide (q ≠ 0)
  | .posInf => true
  | .negInf => true
  | .nan => false

/-- The result of `ToBoolean`; `none` stands for `undefined`. -/
def truthy : Option Json → Bool
  | none => false
  | some .null => false
  | some (.bool b) => b
  | some (.num n) => n.truthy
  | some (.str s) => decide (s ≠ "")
  | some (.arr _) => true
  | some (.obj _) => true

/-- The expression `v || d`: the left operand when it is truthy, else `d`. -/
def jsOr (v : Option Json) (d : Json) : Json :=
  match v with
  | some x => if truthy (some x) then x else d
  | none => d

/-- Member lookup in a parsed object: the last member with that key wins. -/
def lookupMember (key : String) (members : List (String × Json)) : Option Json :=
  members.foldl (fun acc kv => if kv.1 = key then some kv.2 else acc) none

/-- The property access `data.response` on a parsed JSON value: a `TypeError`
on `null`, the member on an object that has one, `undefined` otherwise
(neither `Object.prototype`, `Array.prototype`, `String.prototype`,
`Number.prototype` nor `Boolean.prototype` has a `response` property). -/
def getResponse : Json → Except JsError (Option Json)
  | .null => .error .typeError
  | .obj members => .ok (lookupMember "response" members)
  | _ => .ok none

/-! ## `String.prototype.trim` -/

/-- The code points of WhiteSpace and LineTerminator, which `trim` strips. -/
def isJsWhiteSpace (c : Char) : Bool :=
  let n := c.toNat
  n = 0x09 || n = 0x0A || n = 0x0B || n = 0x0C || n = 0x0D || n = 0x20 ||
  n = 0xA0 || n = 0x1680 || (0x2000 ≤ n && n ≤ 0x200A) || n = 0x2028 ||
  n = 0x2029 || n = 0x202F || n = 0x205F || n = 0x3000 || n = 0xFEFF

/-- The method `input.trim()`: strip white space from both ends. -/
def jsTrim (s : String) : String :=
  String.mk ((s.data.dropWhile isJsWhiteSpace).reverse.dropWhile isJsWhiteSpace).reverse

/-! ## State -/

/-- An element of the `messages` array. `text` is a string for user entries;
for replies it is whatever `data.response || "No response"` evaluates to. -/
structure Message where
  text : Json
  isUser : Bool

/-- The arguments of the `fetch` call. `body` is the value handed to
`JSON.stringify`. -/
structure Request where
  url : String
  method : String
  headers : List (String × String)
  body : Json

/-- A `handleSend` invocation suspended at `await fetch(...)`, with the
`newMessages` array its closure holds. -/
structure Suspended where
  request : Request
  newMessages : List Message

/-- The configuration object of an `Animated.timing(fadeAnim, ...)` call. -/
structure Timing where
  toValue : Nat
  duration : Nat
  useNativeDriver : Bool

/-- The state of the component: the four `useState` cells, the animation most
recently started on `fadeAnim`, the log of `fetch` calls made so far, and the
`handleSend` invocations still awaiting their network call. -/
structure State where
  messages : List Message
  input : String
  isLoading : Bool
  darkMode : Bool
  fadeAnim : Option Timing
  requests : List Request
  inFlight : List Suspended

/-- The initial values passed to `useState` and `useRef`. -/
def State.init : State :=
  { messages := [], input := "", isLoading := false, darkMode := false,
    fadeAnim := none, requests := [], inFlight := [] }

/-! ## The network call -/

/-- A response object: its HTTP status and what `response.json()` will do
(`none` when the body is not valid JSON). -/
structure Response where
  status : Nat
  parsed : Option Json

/-- How an awaited `fetch` settles: the promise rejects, or it resolves with a
response.  `fetch` resolves for every HTTP status. -/
inductive Outcome where
  | rejected
  | resolved (r : Response)

/-- The expression `await fetch(...)`. -/
def awaitFetch : Outcome → Except JsError Response
  | .rejected => .error .networkError
  | .resolved r => .ok r

/-- The expression `await response.json()`. -/
def Response.json (r : Response) : Except JsError Json :=
  match r.parsed with
  | some d => .ok d
  | none => .error .syntaxError

/-! ## Handlers -/

/-- The object passed to `fetch` for pending input `input`. -/
def sendRequest (input : String) : Request :=
  { url := "https://chatai-tyo2.onrender.com/chat",
    method := "POST",
    headers := [("Content-Type", "application/json")],
    body := .obj [("message", .str input)] }

/-- The handler `handleSend` up to its first `await`. -/
def handleSend (s : State) : State :=
  if jsTrim s.input = "" then s
  else
    let newMessages := s.messages ++ [{ text := .str s.input, isUser := true }]
    { s with
      messages := newMessages
      input := ""
      isLoading := true
      requests := s.requests ++ [sendRequest s.input]
      inFlight := s.inFlight ++ [{ request := sendRequest s.input, newMessages := newMessages }] }

/-- The body of the `try` block after the network call settled with `o`: the
array handed to `setMessages`, or the error thrown. -/
def tryBlock (newMessages : List Message) (o : Outcome) : Except JsError (List Message) := do
  let response ← awaitFetch o
  let data ← response.json
  let reply ← getResponse data
  pure (newMessages ++ [{ text := jsOr reply (.str "No response"), isUser := false }])

/-- The body of the `catch` block: the array handed to `setMessages`. -/
def catchBlock (newMessages : List Message) : List Message :=
  newMessages ++ [{ text := .str "Error: Unable to fetch response.", isUser := false }]

/-- The rest of `handleSend` once its network call settled with `o`:
`try`/`catch`, then `setIsLoading(false)`.  The result is `.error` exactly when
an error escapes the function. -/
def handleSendResume (k : Suspended) (o : Outcome) (s : State) : Except JsError State := do
  let s1 ← (match tryBlock k.newMessages o with
    | .ok msgs => pure { s with messages := msgs }
    | .error _ => pure { s with messages := catchBlock k.newMessages } : Except JsError State)
  pure { s1 with isLoading := false }

/-- The handler `handleClear`. -/
def handleClear (s : State) : State :=
  { s with messages := [] }

/-- The handler `handleScroll`, applied to `event.nativeEvent.contentOffset.y`. -/
def handleScroll (s : State) (offsetY : JsNumber) : State :=
  if offsetY.gt (.finite 200) then
    { s with fadeAnim := some { toValue := 1, duration := 300, useNativeDriver := true } }
  else
    { s with fadeAnim := some { toValue := 0, duration := 300, useNativeDriver := true } }

/-- The `onValueChange` handler of the switch: `setDarkMode(!darkMode)`. -/
def toggleTheme (s : State) : State :=
  { s with darkMode := !s.darkMode }

/-- The `onChangeText` handler of the text input: `setInput`. -/
def changeText (s : State) (t : String) : State :=
  { s with input := t }

/-! ## Executions -/

/-- What can happen to the screen. `settle i o` is the network call of the
`i`-th suspended `handleSend` settling with `o`. -/
inductive Event where
  | changeText (t : String)
  | send
  | settle (i : Nat) (o : Outcome)
  | clear
  | toggleTheme
  | scroll (offsetY : JsNumber)

/-- One event applied to a state. -/
def step (s : State) : Event → State
  | .changeText t => changeText s t
  | .send => handleSend s
  | .settle i o =>
    match s.inFlight.get? i with
    | none => s
    | some k =>
      match handleSendResume k o { s with inFlight := s.inFlight.eraseIdx i } with
      | .ok s1 => s1
      | .error _ => { s with inFlight := s.inFlight.eraseIdx i }
  | .clear => handleClear s
  | .toggleTheme => toggleTheme s
  | .scroll y => handleScroll s y

/-- A sequence of events applied to a state, first event first. -/
def run (s : State) (es : List Event) : State :=
  es.foldl step s

/-- The array that the resumed `handleSend` hands to `setMessages`: that of the
`try` block, or that of the `catch` block when the `try` block threw. -/
def settledMessages (newMessages : List Message) (o : Outcome) : List Message :=
  match tryBlock newMessages o with
  | .ok msgs => msgs
  | .error _ => catchBlock newMessages

/-- Events that touch neither the message list, the pending input, the loading
flag nor the network: theme toggles and scroll events. -/
def Event.isPassive : Event → Bool
  | .toggleTheme => true
  | .scroll _ => true
  | _ => false

/-- The discipline under which the message list is append-only: a send is
issued only when no earlier request is in flight (or its input is blank, in
which case it does nothing). Every other event is allowed at any time. -/
def Event.allowed (s : State) : Event → Bool
  | .send => s.inFlight.isEmpty || decide (jsTrim s.input = "")
  | _ => true

/-- An event sequence all of whose events are allowed when they happen. -/
def sequential : State → List Event → Bool
  | _, [] => true
  | s, e :: es => e.allowed s && sequential (step s e) es

/-- At most one request is in flight, and the array its closure holds is the
current message list unless the list has been cleared since. -/
def SingleFlight (s : State) : Prop :=
  s.inFlight = [] ∨
    ∃ k : Suspended, s.inFlight = [k] ∧ (s.messages = k.newMessages ∨ s.messages = [])

/-! ## Auxiliary facts -/

/-- Trimming a string made only of white space gives the empty string. -/
theorem jsTrim_of_all_white (t : String)
    (h : ∀ c ∈ t.data, isJsWhiteSpace c = true) : jsTrim t = "" := by
  have h1 : t.data.dropWhile isJsWhiteSpace = [] := by
    rw [List.dropWhile_eq_nil_iff]
    exact h
  unfold jsTrim
  rw [h1]
  rfl

/-- A non-blank send leaves exactly this state behind. -/
theorem handleSend_of_nonblank (s : State) (h : jsTrim s.input ≠ "") :
    handleSend s =
      { s with
        messages := s.messages ++ [{ text := .str s.input, isUser := true }]
        input := ""
        isLoading := true
        requests := s.requests ++ [sendRequest s.input]
        inFlight := s.inFlight ++
          [{ request := sendRequest s.input,
             newMessages := s.messages ++ [{ text := .str s.input, isUser := true }] }] } := by
  unfold handleSend
  rw [if_neg h]

/-- The resumed `handleSend` always completes normally. -/
theorem handleSendResume_eq (k : Suspended) (o : Outcome) (s : State) :
    handleSendResume k o s =
      .ok { s with messages := settledMessages k.newMessages o, isLoading := false } := by
  unfold handleSendResume settledMessages
  cases tryBlock k.newMessages o <;> rfl

/-- Settling the `i`-th suspended invocation. -/
theorem step_settle_of_get (s : State) (i : Nat) (o : Outcome) (k : Suspended)
    (h : s.inFlight.get? i = some k) :
    step s (.settle i o) =
      { s with
        messages := settledMessages k.newMessages o
        isLoading := false
        inFlight := s.inFlight.eraseIdx i } := by
  simp only [step, h, handleSendResume_eq]

/-- A non-blank send followed at once by the settlement of its own call. -/
theorem send_then_settle (s : State) (o : Outcome) (h : jsTrim s.input ≠ "") :
    run s [.send, .settle s.inFlight.length o] =
      { s with
        messages :=
          settledMessages (s.messages ++ [{ text := .str s.input, isUser := true }]) o
        input := ""
        isLoading := false
        requests := s.requests ++ [sendRequest s.input]
        inFlight := s.inFlight } := by
  have hs : step s .send = handleSend s := rfl
  simp only [run, List.foldl_cons, List.foldl_nil, hs]
  rw [step_settle_of_get (handleSend s) s.inFlight.length o
    { request := sendRequest s.input,
      newMessages := s.messages ++ [{ text := .str s.input, isUser := true }] }]
  · rw [handleSend_of_nonblank s h]
    simp [List.eraseIdx_append_of_length_le]
  · rw [handleSend_of_nonblank s h]
    simp

/-- An object none of whose members is called `key` has no such member. -/
theorem lookupMember_of_absent (key : String) (members : List (String × Json))
    (h : ∀ kv ∈ members, kv.1 ≠ key) : lookupMember key members = none := by
  unfold lookupMember
  induction members using List.reverseRecOn with
  | nil => rfl
  | append_singleton ms kv ih =>
    rw [List.foldl_append]
    have hk : kv.1 ≠ key := h kv (by simp)
    simp only [List.foldl_cons, List.foldl_nil, if_neg hk]
    exact ih (fun x hx => h x (by simp [hx]))

/-- What the settled call appends when the network call rejects. -/
theorem settledMessages_rejected (ms : List Message) :
    settledMessages ms .rejected =
      ms ++ [{ text := .str "Error: Unable to fetch response.", isUser := false }] := rfl

/-- What the settled call appends when the body is not valid JSON. -/
theorem settledMessages_malformed (ms : List Message) (status : Nat) :
    settledMessages ms (.resolved { status := status, parsed := none }) =
      ms ++ [{ text := .str "Error: Unable to fetch response.", isUser := false }] := rfl

/-- What the settled call appends when the body parses to an object. -/
theorem settledMessages_obj (ms : List Message) (status : Nat)
    (members : List (String × Json)) :
    settledMessages ms (.resolved { status := status, parsed := some (.obj members) }) =
      ms ++ [{ text := jsOr (lookupMember "response" members) (.str "No response"),
               isUser := false }] := rfl

/-- Running two event sequences one after the other. -/
theorem run_append (s : State) (es fs : List Event) :
    run s (es ++ fs) = run (run s es) fs := by
  simp [run, List.foldl_append]

/-- Theme toggles and scroll events leave the data fields alone. -/
theorem run_passive (es : List Event) (h : es.all Event.isPassive = true) (s : State) :
    (run s es).messages = s.messages ∧ (run s es).input = s.input ∧
    (run s es).isLoading = s.isLoading ∧ (run s es).requests = s.requests ∧
    (run s es).inFlight = s.inFlight := by
  induction es generalizing s with
  | nil => simp [run]
  | cons e es ih =>
    rw [List.all_cons, Bool.and_eq_true] at h
    have hrun : run s (e :: es) = run (step s e) es := rfl
    rw [hrun]
    obtain ⟨h1, h2, h3, h4, h5⟩ := ih h.2 (step s e)
    rw [h1, h2, h3, h4, h5]
    cases e with
    | toggleTheme => simp [step, toggleTheme]
    | scroll y =>
      simp only [step, handleScroll]
      split <;> simp
    | changeText t => simp [Event.isPassive] at h
    | send => simp [Event.isPassive] at h
    | settle i o => simp [Event.isPassive] at h
    | clear => simp [Event.isPassive] at h

/-- Whatever the outcome, the settled call appends exactly one reply entry. -/
theorem settledMessages_shape (ms : List Message) (o : Outcome) :
    ∃ reply : Json, settledMessages ms o = ms ++ [{ text := reply, isUser := false }] := by
  cases o with
  | rejected => exact ⟨_, rfl⟩
  | resolved r =>
    obtain ⟨status, parsed⟩ := r
    cases parsed with
    | none => exact ⟨_, rfl⟩
    | some d => cases d <;> exact ⟨_, rfl⟩

/-! ## The send action -/

/-- C1 (as stated, refuted): with pending input "hi" and the endpoint returning
the object whose `response` member is the empty string, the reply entry is the
fallback "No response", not an entry with text "". -/
theorem C1_empty_reply_counterexample :
    jsTrim "hi" ≠ "" ∧
    (run (changeText State.init "hi")
        [.send, .settle 0 (.resolved ⟨200, some (.obj [("response", .str "")])⟩)]).messages
      = [{ text := .str "hi", isUser := true },
         { text := .str "No response", isUser := false }] ∧
    (run (changeText State.init "hi")
        [.send, .settle 0 (.resolved ⟨200, some (.obj [("response", .str "")])⟩)]).messages
      ≠ [{ text := .str "hi", isUser := true },
         { text := .str "", isUser := false }] := by
  refine ⟨by decide, rfl, ?_⟩
  have h : (run (changeText State.init "hi")
        [.send, .settle 0 (.resolved ⟨200, some (.obj [("response", .str "")])⟩)]).messages
      = [{ text := .str "hi", isUser := true },
         { text := .str "No response", isUser := false }] := rfl
  rw [h]
  simp

/-- C1 (amended): for every non-blank pending input `t` and every non-empty
reply string `r`, a send started from the empty message list with the endpoint
returning the object `{"response": r}` ends with the message list
`[{t, true}, {r, false}]` and `isLoading = false`. -/
theorem C1_send_reply (s : State) (t r : String) (status : Nat)
    (hm : s.messages = []) (hi : s.input = t) (ht : jsTrim t ≠ "") (hr : r ≠ "") :
    (run s [.send, .settle s.inFlight.length (.resolved ⟨status, some (.obj [("response", .str r)])⟩)]).messages
      = [{ text := .str t, isUser := true }, { text := .str r, isUser := false }] ∧
    (run s [.send, .settle s.inFlight.length (.resolved ⟨status, some (.obj [("response", .str r)])⟩)]).isLoading = false := by
  subst hi
  rw [send_then_settle s _ ht, settledMessages_obj]
  simp [hm, lookupMember, jsOr, truthy, hr]

/-- C1 witness: `t = "hi"`, `r = "hello"`, from the initial screen. -/
theorem C1_send_reply_witness :
    (run (changeText State.init "hi")
        [.send, .settle 0 (.resolved ⟨200, some (.obj [("response", .str "hello")])⟩)]).messages
      = [{ text := .str "hi", isUser := true }, { text := .str "hello", isUser := false }] ∧
    (run (changeText State.init "hi")
        [.send, .settle 0 (.resolved ⟨200, some (.obj [("response", .str "hello")])⟩)]).isLoading = false :=
  C1_send_reply (changeText State.init "hi") "hi" "hello" 200 rfl rfl (by decide) (by decide)

/-- C2: a single non-blank send run to settlement, whatever the outcome `o` of
its network call and whatever theme toggles and scroll events happen in
between: exactly one request is issued, its body is `{message: t}` with `t` the
raw input; the loading flag is true from initiation until settlement; finally
the message list is the prior list followed by `{t, true}` and one entry with
`isUser = false`, the pending input is empty and the loading flag false. -/
theorem C2_single_send (s : State) (o : Outcome) (es : List Event)
    (ht : jsTrim s.input ≠ "") (hes : es.all Event.isPassive = true) :
    (sendRequest s.input).body = .obj [("message", .str s.input)] ∧
    (∀ n : Nat,
      (run s (.send :: es.take n)).isLoading = true ∧
      (run s (.send :: es.take n)).requests = s.requests ++ [sendRequest s.input]) ∧
    (run s (.send :: es ++ [.settle s.inFlight.length o])).requests
      = s.requests ++ [sendRequest s.input] ∧
    (∃ reply : Json,
      (run s (.send :: es ++ [.settle s.inFlight.length o])).messages
        = s.messages ++
          [{ text := .str s.input, isUser := true }, { text := reply, isUser := false }]) ∧
    (run s (.send :: es ++ [.settle s.inFlight.length o])).input = "" ∧
    (run s (.send :: es ++ [.settle s.inFlight.length o])).isLoading = false ∧
    (run s (.send :: es ++ [.settle s.inFlight.length o])).inFlight = s.inFlight := by
  have hcons : ∀ fs : List Event, run s (.send :: fs) = run (handleSend s) fs := fun _ => rfl
  have hsend := handleSend_of_nonblank s ht
  refine ⟨rfl, ?_, ?_⟩
  · intro n
    have hn : (es.take n).all Event.isPassive = true := by
      rw [List.all_eq_true] at hes ⊢
      exact fun e he => hes e (List.mem_of_mem_take he)
    obtain ⟨-, -, h3, h4, -⟩ := run_passive (es.take n) hn (handleSend s)
    rw [hcons, h3, h4, hsend]
    exact ⟨rfl, rfl⟩
  · obtain ⟨h1, h2, h3, h4, h5⟩ := run_passive es hes (handleSend s)
    have hget : (run (handleSend s) es).inFlight.get? s.inFlight.length
        = some { request := sendRequest s.input,
                 newMessages := s.messages ++ [{ text := .str s.input, isUser := true }] } := by
      rw [h5, hsend]
      simp
    have hfin : run s (.send :: es ++ [.settle s.inFlight.length o])
        = step (run (handleSend s) es) (.settle s.inFlight.length o) := by
      rw [List.cons_append, hcons, run_append]
      rfl
    rw [hfin, step_settle_of_get _ _ o _ hget]
    obtain ⟨reply, hreply⟩ :=
      settledMessages_shape (s.messages ++ [{ text := .str s.input, isUser := true }]) o
    refine ⟨?_, ⟨reply, ?_⟩, ?_, rfl, ?_⟩
    · show (run (handleSend s) es).requests = _
      rw [h4, hsend]
    · simp only [hreply, List.append_assoc, List.singleton_append]
    · show (run (handleSend s) es).input = _
      rw [h2, hsend]
    · show (run (handleSend s) es).inFlight.eraseIdx s.inFlight.length = _
      rw [h5, hsend]
      simp [List.eraseIdx_append_of_length_le]

/-- C2 witness: sending "hi" from the initial screen, a theme toggle while the
request is in flight, and a malformed reply body. -/
theorem C2_single_send_witness :
    (sendRequest "hi").body = .obj [("message", .str "hi")] ∧
    (∀ n : Nat,
      (run (changeText State.init "hi")
        (.send :: [Event.toggleTheme].take n)).isLoading = true ∧
      (run (changeText State.init "hi")
        (.send :: [Event.toggleTheme].take n)).requests = [] ++ [sendRequest "hi"]) ∧
    (run (changeText State.init "hi")
      (.send :: [Event.toggleTheme] ++ [.settle 0 (.resolved ⟨502, none⟩)])).requests
      = [] ++ [sendRequest "hi"] ∧
    (∃ reply : Json,
      (run (changeText State.init "hi")
        (.send :: [Event.toggleTheme] ++ [.settle 0 (.resolved ⟨502, none⟩)])).messages
        = [] ++
          [{ text := .str "hi", isUser := true }, { text := reply, isUser := false }]) ∧
    (run (changeText State.init "hi")
      (.send :: [Event.toggleTheme] ++ [.settle 0 (.resolved ⟨502, none⟩)])).input = "" ∧
    (run (changeText State.init "hi")
      (.send :: [Event.toggleTheme] ++ [.settle 0 (.resolved ⟨502, none⟩)])).isLoading = false ∧
    (run (changeText State.init "hi")
      (.send :: [Event.toggleTheme] ++ [.settle 0 (.resolved ⟨502, none⟩)])).inFlight = [] :=
  C2_single_send (changeText State.init "hi") (.resolved ⟨502, none⟩) [.toggleTheme]
    (by decide) (by decide)

/-- C3: for every prior state with non-blank pending input `t`, when the
`fetch` call of the send rejects, the resumed handler completes normally (the
error does not escape it), the entry appended after `{t, true}` is exactly
`{"Error: Unable to fetch response.", false}`, and the loading flag is false
afterwards. -/
theorem C3_network_error (s : State) (ht : jsTrim s.input ≠ "") :
    (handleSend s).inFlight.get? s.inFlight.length
      = some { request := sendRequest s.input,
               newMessages := s.messages ++ [{ text := .str s.input, isUser := true }] } ∧
    (∀ st : State,
      handleSendResume
          { request := sendRequest s.input,
            newMessages := s.messages ++ [{ text := .str s.input, isUser := true }] }
          .rejected st
        = .ok { st with
                messages := s.messages ++
                  [{ text := .str s.input, isUser := true },
                   { text := .str "Error: Unable to fetch response.", isUser := false }]
                isLoading := false }) ∧
    (run s [.send, .settle s.inFlight.length .rejected]).messages
      = s.messages ++
          [{ text := .str s.input, isUser := true },
           { text := .str "Error: Unable to fetch response.", isUser := false }] ∧
    (run s [.send, .settle s.inFlight.length .rejected]).isLoading = false := by
  refine ⟨?_, ?_, ?_, ?_⟩
  · rw [handleSend_of_nonblank s ht]
    simp
  · intro st
    rw [handleSendResume_eq, settledMessages_rejected]
    simp
  · rw [send_then_settle s _ ht, settledMessages_rejected]
    simp
  · rw [send_then_settle s _ ht]

/-- C3 witness: `t = "hi"` from the initial screen. -/
theorem C3_network_error_witness :
    (handleSend (changeText State.init "hi")).inFlight.get? 0
      = some { request := sendRequest "hi",
               newMessages := [] ++ [{ text := .str "hi", isUser := true }] } ∧
    (∀ st : State,
      handleSendResume
          { request := sendRequest "hi",
            newMessages := [] ++ [{ text := .str "hi", isUser := true }] }
          .rejected st
        = .ok { st with
                messages := [] ++
                  [{ text := .str "hi", isUser := true },
                   { text := .str "Error: Unable to fetch response.", isUser := false }]
                isLoading := false }) ∧
    (run (changeText State.init "hi") [.send, .settle 0 .rejected]).messages
      = [] ++
          [{ text := .str "hi", isUser := true },
           { text := .str "Error: Unable to fetch response.", isUser := false }] ∧
    (run (changeText State.init "hi") [.send, .settle 0 .rejected]).isLoading = false :=
  C3_network_error (changeText State.init "hi") (by decide)

/-- C4 (as stated, refuted): a response with HTTP status 500 whose body is the
JSON object `{"response": "oops"}` is not treated as a failure: the reply
entry has text "oops", not the sentinel. -/
theorem C4_http_error_status_counterexample :
    jsTrim "hi" ≠ "" ∧
    (run (changeText State.init "hi")
        [.send, .settle 0 (.resolved ⟨500, some (.obj [("response", .str "oops")])⟩)]).messages
      = [{ text := .str "hi", isUser := true }, { text := .str "oops", isUser := false }] ∧
    (run (changeText State.init "hi")
        [.send, .settle 0 (.resolved ⟨500, some (.obj [("response", .str "oops")])⟩)]).messages
      ≠ [{ text := .str "hi", isUser := true },
         { text := .str "Error: Unable to fetch response.", isUser := false }] := by
  refine ⟨by decide, rfl, ?_⟩
  have h : (run (changeText State.init "hi")
        [.send, .settle 0 (.resolved ⟨500, some (.obj [("response", .str "oops")])⟩)]).messages
      = [{ text := .str "hi", isUser := true }, { text := .str "oops", isUser := false }] := rfl
  rw [h]
  simp

/-- C4 (amended): for every non-blank send, a rejected `fetch` (timeout or
connectivity loss), a response whose body is not valid JSON and a response
whose body is the JSON value `null`, whatever the HTTP status, all produce the
same appended entry `{"Error: Unable to fetch response.", false}`. The HTTP
status is never inspected, so a 4xx or 5xx status is not a failure by itself:
at every status a body that is a JSON object yields the reply text
`data.response` when that member is present and truthy and "No response"
otherwise (the object `{"response": r}` gives `r` for a non-empty string `r`
and "No response" for the empty one, the object `{}` gives "No response"), and
a body that is a boolean, a number, a string or an array yields
"No response". -/
theorem C4_failures_collapse (s : State) (status status2 : Nat) (body : Option Json)
    (members : List (String × Json)) (r : String)
    (b : Bool) (n : JsNumber) (str : String) (items : List Json)
    (ht : jsTrim s.input ≠ "") :
    (run s [.send, .settle s.inFlight.length .rejected]).messages
      = s.messages ++
          [{ text := .str s.input, isUser := true },
           { text := .str "Error: Unable to fetch response.", isUser := false }] ∧
    (run s [.send, .settle s.inFlight.length (.resolved ⟨status, none⟩)]).messages
      = s.messages ++
          [{ text := .str s.input, isUser := true },
           { text := .str "Error: Unable to fetch response.", isUser := false }] ∧
    (run s [.send, .settle s.inFlight.length (.resolved ⟨status, some .null⟩)]).messages
      = s.messages ++
          [{ text := .str s.input, isUser := true },
           { text := .str "Error: Unable to fetch response.", isUser := false }] ∧
    (run s [.send, .settle s.inFlight.length
        (.resolved ⟨status, some (.obj members)⟩)]).messages
      = s.messages ++
          [{ text := .str s.input, isUser := true },
           { text := (match lookupMember "response" members with
               | some v => if truthy (some v) then v else .str "No response"
               | none => .str "No response"),
             isUser := false }] ∧
    (run s [.send, .settle s.inFlight.length
        (.resolved ⟨status, some (.obj [("response", .str r)])⟩)]).messages
      = s.messages ++
          [{ text := .str s.input, isUser := true },
           { text := .str (if r = "" then "No response" else r), isUser := false }] ∧
    (run s [.send, .settle s.inFlight.length (.resolved ⟨status, some (.obj [])⟩)]).messages
      = s.messages ++
          [{ text := .str s.input, isUser := true },
           { text := .str "No response", isUser := false }] ∧
    (run s [.send, .settle s.inFlight.length (.resolved ⟨status, some (.bool b)⟩)]).messages
      = s.messages ++
          [{ text := .str s.input, isUser := true },
           { text := .str "No response", isUser := false }] ∧
    (run s [.send, .settle s.inFlight.length (.resolved ⟨status, some (.num n)⟩)]).messages
      = s.messages ++
          [{ text := .str s.input, isUser := true },
           { text := .str "No response", isUser := false }] ∧
    (run s [.send, .settle s.inFlight.length (.resolved ⟨status, some (.str str)⟩)]).messages
      = s.messages ++
          [{ text := .str s.input, isUser := true },
           { text := .str "No response", isUser := false }] ∧
    (run s [.send, .settle s.inFlight.length (.resolved ⟨status, some (.arr items)⟩)]).messages
      = s.messages ++
          [{ text := .str s.input, isUser := true },
           { text := .str "No response", isUser := false }] ∧
    (run s [.send, .settle s.inFlight.length (.resolved ⟨status, body⟩)]).messages
      = (run s [.send, .settle s.inFlight.length (.resolved ⟨status2, body⟩)]).messages := by
  have hnull : ∀ ms : List Message, settledMessages ms (.resolved ⟨status, some .null⟩)
      = ms ++ [{ text := .str "Error: Unable to fetch response.", isUser := false }] :=
    fun _ => rfl
  have hbool : ∀ ms : List Message, settledMessages ms (.resolved ⟨status, some (.bool b)⟩)
      = ms ++ [{ text := .str "No response", isUser := false }] := fun _ => rfl
  have hnum : ∀ ms : List Message, settledMessages ms (.resolved ⟨status, some (.num n)⟩)
      = ms ++ [{ text := .str "No response", isUser := false }] := fun _ => rfl
  have hstr : ∀ ms : List Message, settledMessages ms (.resolved ⟨status, some (.str str)⟩)
      = ms ++ [{ text := .str "No response", isUser := false }] := fun _ => rfl
  have harr : ∀ ms : List Message, settledMessages ms (.resolved ⟨status, some (.arr items)⟩)
      = ms ++ [{ text := .str "No response", isUser := false }] := fun _ => rfl
  refine ⟨?_, ?_, ?_, ?_, ?_, ?_, ?_, ?_, ?_, ?_, ?_⟩
  · rw [send_then_settle s _ ht, settledMessages_rejected]
    simp
  · rw [send_then_settle s _ ht, settledMessages_malformed]
    simp
  · rw [send_then_settle s _ ht, hnull]
    simp
  · rw [send_then_settle s _ ht, settledMessages_obj]
    simp only [jsOr, List.append_assoc, List.singleton_append]
  · rw [send_then_settle s _ ht, settledMessages_obj]
    by_cases hr : r = "" <;> simp [lookupMember, jsOr, truthy, hr]
  · rw [send_then_settle s _ ht, settledMessages_obj]
    simp [lookupMember, jsOr]
  · rw [send_then_settle s _ ht, hbool]
    simp
  · rw [send_then_settle s _ ht, hnum]
    simp
  · rw [send_then_settle s _ ht, hstr]
    simp
  · rw [send_then_settle s _ ht, harr]
    simp
  · rw [send_then_settle s _ ht, send_then_settle s _ ht]
    rfl

/-- C4 witness: `t = "hi"`, statuses 404 and 503, object body
`{"error": "x", "response": 7}`, reply string "oops", boolean `false`,
number 0, string "down" and the empty array. -/
theorem C4_failures_collapse_witness :
    (run (changeText State.init "hi") [.send, .settle 0 .rejected]).messages
      = [{ text := .str "hi", isUser := true },
         { text := .str "Error: Unable to fetch response.", isUser := false }] ∧
    (run (changeText State.init "hi") [.send, .settle 0 (.resolved ⟨404, none⟩)]).messages
      = [{ text := .str "hi", isUser := true },
         { text := .str "Error: Unable to fetch response.", isUser := false }] ∧
    (run (changeText State.init "hi")
        [.send, .settle 0 (.resolved ⟨404, some .null⟩)]).messages
      = [{ text := .str "hi", isUser := true },
         { text := .str "Error: Unable to fetch response.", isUser := false }] ∧
    (run (changeText State.init "hi")
        [.send, .settle 0 (.resolved ⟨404, some (.obj [("response", .str "oops")])⟩)]).messages
      = [{ text := .str "hi", isUser := true },
         { text := .str "oops", isUser := false }] ∧
    (run (changeText State.init "hi")
        [.send, .settle 0 (.resolved ⟨404, some (.str "down")⟩)]).messages
      = [{ text := .str "hi", isUser := true },
         { text := .str "No response", isUser := false }] :=
  have h := C4_failures_collapse (changeText State.init "hi") 404 503 (some (.obj []))
    [("error", .str "x"), ("response", .num (.finite 7))] "oops" false (.finite 0) "down" []
    (by decide)
  ⟨h.1, h.2.1, h.2.2.1, h.2.2.2.2.1, h.2.2.2.2.2.2.2.2.1⟩

/-- C5: for every prior state with non-blank pending input `t`, when the reply
of the endpoint is a JSON object with no member called `response`, the reply
entry appended by the send is exactly `{"No response", false}`. -/
theorem C5_missing_field (s : State) (status : Nat) (members : List (String × Json))
    (ht : jsTrim s.input ≠ "") (hm : ∀ kv ∈ members, kv.1 ≠ "response") :
    (run s [.send, .settle s.inFlight.length
        (.resolved ⟨status, some (.obj members)⟩)]).messages
      = s.messages ++
          [{ text := .str s.input, isUser := true },
           { text := .str "No response", isUser := false }] := by
  rw [send_then_settle s _ ht, settledMessages_obj, lookupMember_of_absent _ _ hm]
  simp [jsOr]

/-- C5 witness: `t = "hi"`, body `{}`. -/
theorem C5_missing_field_witness :
    (run (changeText State.init "hi")
        [.send, .settle 0 (.resolved ⟨200, some (.obj [])⟩)]).messages
      = [] ++
          [{ text := .str "hi", isUser := true },
           { text := .str "No response", isUser := false }] :=
  C5_missing_field (changeText State.init "hi") 200 [] (by decide) (by simp)

/-- C6: when the pending input is empty or only white space (its trimmed form
is the empty string), the send is a no-op: the whole state, in particular the
message list, the pending input, the loading flag, the dark-mode flag and the
log of network requests, is unchanged. -/
theorem C6_blank_send_noop (s : State)
    (h : jsTrim s.input = "" ∨ ∀ c ∈ s.input.data, isJsWhiteSpace c = true) :
    handleSend s = s ∧ step s .send = s ∧
    (handleSend s).messages = s.messages ∧ (handleSend s).isLoading = s.isLoading ∧
    (handleSend s).input = s.input ∧ (handleSend s).darkMode = s.darkMode ∧
    (handleSend s).requests = s.requests ∧ (handleSend s).inFlight = s.inFlight := by
  have ht : jsTrim s.input = "" := by
    rcases h with h | h
    · exact h
    · exact jsTrim_of_all_white _ h
  have hs : handleSend s = s := by
    unfold handleSend
    rw [if_pos ht]
  have hstep : step s .send = handleSend s := rfl
  rw [hstep, hs]
  simp

/-- C6 witness: a pending input of two spaces, a tab and a line feed. -/
theorem C6_blank_send_noop_witness :
    handleSend (changeText State.init "  \t\n") = changeText State.init "  \t\n" ∧
    step (changeText State.init "  \t\n") .send = changeText State.init "  \t\n" ∧
    (handleSend (changeText State.init "  \t\n")).messages
      = (changeText State.init "  \t\n").messages ∧
    (handleSend (changeText State.init "  \t\n")).isLoading
      = (changeText State.init "  \t\n").isLoading ∧
    (handleSend (changeText State.init "  \t\n")).input
      = (changeText State.init "  \t\n").input ∧
    (handleSend (changeText State.init "  \t\n")).darkMode
      = (changeText State.init "  \t\n").darkMode ∧
    (handleSend (changeText State.init "  \t\n")).requests
      = (changeText State.init "  \t\n").requests ∧
    (handleSend (changeText State.init "  \t\n")).inFlight
      = (changeText State.init "  \t\n").inFlight :=
  C6_blank_send_noop (changeText State.init "  \t\n") (Or.inl (by decide))

/-! ## Clear, scroll and theme -/

/-- C8: for every prior state, `handleClear` results in the empty message list
and leaves the pending input, the loading flag and the dark-mode flag (and the
animation and the network bookkeeping) unchanged. -/
theorem C8_clear (s : State) :
    (handleClear s).messages = [] ∧ (handleClear s).input = s.input ∧
    (handleClear s).isLoading = s.isLoading ∧ (handleClear s).darkMode = s.darkMode ∧
    (handleClear s).fadeAnim = s.fadeAnim ∧ (handleClear s).requests = s.requests ∧
    (handleClear s).inFlight = s.inFlight ∧ step s .clear = handleClear s :=
  ⟨rfl, rfl, rfl, rfl, rfl, rfl, rfl, rfl⟩

/-- C9: for every scroll offset, `handleScroll` starts an animation of duration
300 on `fadeAnim` whose target is 1 when the offset is greater than 200 and 0
when it is at most 200 (in particular at exactly 200); the message list, the
pending input, the loading flag and the dark-mode flag are unchanged. -/
theorem C9_scroll (s : State) (q : Rat) (y : JsNumber) :
    (handleScroll s (.finite q)).fadeAnim
      = some { toValue := if 200 < q then 1 else 0, duration := 300, useNativeDriver := true } ∧
    (handleScroll s (.finite 200)).fadeAnim
      = some { toValue := 0, duration := 300, useNativeDriver := true } ∧
    (handleScroll s .posInf).fadeAnim
      = some { toValue := 1, duration := 300, useNativeDriver := true } ∧
    (handleScroll s .negInf).fadeAnim
      = some { toValue := 0, duration := 300, useNativeDriver := true } ∧
    (handleScroll s y).fadeAnim
      = some { toValue := if y.gt (.finite 200) then 1 else 0, duration := 300,
               useNativeDriver := true } ∧
    (y.le (.finite 200) && y.gt (.finite 200)) = false ∧
    (handleScroll s y).messages = s.messages ∧ (handleScroll s y).input = s.input ∧
    (handleScroll s y).isLoading = s.isLoading ∧ (handleScroll s y).darkMode = s.darkMode ∧
    (handleScroll s y).requests = s.requests ∧ (handleScroll s y).inFlight = s.inFlight := by
  refine ⟨?_, ?_, rfl, rfl, ?_, ?_, ?_⟩
  · unfold handleScroll
    by_cases h : 200 < q <;> simp [JsNumber.gt, h]
  · unfold handleScroll
    simp [JsNumber.gt]
  · unfold handleScroll
    split <;> simp [*]
  · cases y with
    | finite r =>
      by_cases h : r ≤ 200
      · simp [JsNumber.le, JsNumber.gt, h]
      · simp [JsNumber.le, h]
    | posInf => simp [JsNumber.le]
    | negInf => simp [JsNumber.le, JsNumber.gt]
    | nan => simp [JsNumber.le]
  · unfold handleScroll
    split <;> simp

/-- C10: the theme toggle flips the dark-mode flag, applying it twice gives
back the original state, and no application changes the message list, the
pending input or the loading flag. -/
theorem C10_toggle_theme (s : State) :
    (toggleTheme s).darkMode = !s.darkMode ∧
    toggleTheme (toggleTheme s) = s ∧
    (toggleTheme (toggleTheme s)).darkMode = s.darkMode ∧
    (toggleTheme s).messages = s.messages ∧ (toggleTheme s).input = s.input ∧
    (toggleTheme s).isLoading = s.isLoading ∧ (toggleTheme s).fadeAnim = s.fadeAnim ∧
    (toggleTheme s).requests = s.requests ∧ (toggleTheme s).inFlight = s.inFlight ∧
    step s .toggleTheme = toggleTheme s := by
  refine ⟨rfl, ?_, ?_, rfl, rfl, rfl, rfl, rfl, rfl, rfl⟩
  · simp [toggleTheme]
  · simp [toggleTheme]

/-! ## The message list over whole executions -/

/-- Splitting a sequential run. -/
theorem sequential_append (es fs : List Event) (s : State) :
    sequential s (es ++ fs) = (sequential s es && sequential (run s es) fs) := by
  induction es generalizing s with
  | nil => simp [sequential, run]
  | cons e es ih =>
    have hrun : run s (e :: es) = run (step s e) es := rfl
    simp [sequential, ih, hrun, Bool.and_assoc]

/-- An allowed event keeps the single-flight invariant. -/
theorem singleFlight_step (s : State) (e : Event) (hI : SingleFlight s)
    (ha : e.allowed s = true) : SingleFlight (step s e) := by
  cases e with
  | changeText t => exact hI
  | toggleTheme => exact hI
  | clear =>
    rcases hI with h | ⟨k, hk, -⟩
    · exact Or.inl h
    · exact Or.inr ⟨k, hk, Or.inr rfl⟩
  | scroll y =>
    have h1 : (step s (.scroll y)).inFlight = s.inFlight := by
      simp only [step, handleScroll]
      split <;> rfl
    have h2 : (step s (.scroll y)).messages = s.messages := by
      simp only [step, handleScroll]
      split <;> rfl
    unfold SingleFlight
    rw [h1, h2]
    exact hI
  | send =>
    by_cases hb : jsTrim s.input = ""
    · have hs : step s .send = s := by
        show handleSend s = s
        unfold handleSend
        rw [if_pos hb]
      rw [hs]
      exact hI
    · have hempty : s.inFlight = [] := by
        simpa [Event.allowed, hb, List.isEmpty_iff] using ha
      have hs : step s .send = handleSend s := rfl
      rw [hs, handleSend_of_nonblank s hb]
      exact Or.inr
        ⟨{ request := sendRequest s.input,
           newMessages := s.messages ++ [{ text := .str s.input, isUser := true }] },
          by simp [hempty], Or.inl rfl⟩
  | settle i o =>
    rcases hI with h | ⟨k, hk, hm⟩
    · have hs : step s (.settle i o) = s := by
        simp [step, h]
      rw [hs]
      exact Or.inl h
    · cases i with
      | zero =>
        rw [step_settle_of_get s 0 o k (by simp [hk])]
        exact Or.inl (by simp [hk])
      | succ n =>
        have hs : step s (.settle (n + 1) o) = s := by
          simp [step, hk]
        rw [hs]
        exact Or.inr ⟨k, hk, hm⟩

/-- A sequential run keeps the single-flight invariant. -/
theorem singleFlight_run (es : List Event) (s : State) (hI : SingleFlight s)
    (hs : sequential s es = true) : SingleFlight (run s es) := by
  induction es generalizing s with
  | nil => exact hI
  | cons e es ih =>
    rw [sequential, Bool.and_eq_true] at hs
    exact ih (step s e) (singleFlight_step s e hI hs.1) hs.2

/-- Under the single-flight invariant an allowed event appends to the message
list or empties it. -/
theorem step_appends_or_clears (s : State) (e : Event) (hI : SingleFlight s)
    (ha : e.allowed s = true) :
    s.messages <+: (step s e).messages ∨ (step s e).messages = [] := by
  cases e with
  | changeText t => exact Or.inl ⟨[], by simp [step, changeText]⟩
  | toggleTheme => exact Or.inl ⟨[], by simp [step, toggleTheme]⟩
  | clear => exact Or.inr rfl
  | scroll y =>
    have h2 : (step s (.scroll y)).messages = s.messages := by
      simp only [step, handleScroll]
      split <;> rfl
    exact Or.inl ⟨[], by simp [h2]⟩
  | send =>
    have hs : step s .send = handleSend s := rfl
    by_cases hb : jsTrim s.input = ""
    · have hn : handleSend s = s := by
        unfold handleSend
        rw [if_pos hb]
      exact Or.inl ⟨[], by simp [hs, hn]⟩
    · rw [hs, handleSend_of_nonblank s hb]
      exact Or.inl ⟨_, rfl⟩
  | settle i o =>
    rcases hI with h | ⟨k, hk, hm⟩
    · have hs : step s (.settle i o) = s := by
        simp [step, h]
      exact Or.inl ⟨[], by simp [hs]⟩
    · cases i with
      | zero =>
        rw [step_settle_of_get s 0 o k (by simp [hk])]
        obtain ⟨reply, hreply⟩ := settledMessages_shape k.newMessages o
        rcases hm with hm | hm
        · exact Or.inl ⟨[{ text := reply, isUser := false }], by simp [hreply, hm]⟩
        · exact Or.inl ⟨settledMessages k.newMessages o, by simp [hm]⟩
      | succ n =>
        have hs : step s (.settle (n + 1) o) = s := by
          simp [step, hk]
        exact Or.inl ⟨[], by simp [hs]⟩

/-- C7 (as stated, refuted): two overlapping sends whose replies arrive in
reverse order. Settling the first request replaces the list
`[a, b, "B"]` by `[a, "A"]`, which neither extends it nor is empty. -/
theorem C7_overlapping_sends_counterexample :
    (run State.init
        [.changeText "a", .send, .changeText "b", .send,
         .settle 1 (.resolved ⟨200, some (.obj [("response", .str "B")])⟩)]).messages
      = [{ text := .str "a", isUser := true }, { text := .str "b", isUser := true },
         { text := .str "B", isUser := false }] ∧
    (step
        (run State.init
          [.changeText "a", .send, .changeText "b", .send,
           .settle 1 (.resolved ⟨200, some (.obj [("response", .str "B")])⟩)])
        (.settle 0 (.resolved ⟨200, some (.obj [("response", .str "A")])⟩))).messages
      = [{ text := .str "a", isUser := true }, { text := .str "A", isUser := false }] ∧
    ¬ ((run State.init
        [.changeText "a", .send, .changeText "b", .send,
         .settle 1 (.resolved ⟨200, some (.obj [("response", .str "B")])⟩)]).messages
      <+: (step
        (run State.init
          [.changeText "a", .send, .changeText "b", .send,
           .settle 1 (.resolved ⟨200, some (.obj [("response", .str "B")])⟩)])
        (.settle 0 (.resolved ⟨200, some (.obj [("response", .str "A")])⟩))).messages) ∧
    (step
        (run State.init
          [.changeText "a", .send, .changeText "b", .send,
           .settle 1 (.resolved ⟨200, some (.obj [("response", .str "B")])⟩)])
        (.settle 0 (.resolved ⟨200, some (.obj [("response", .str "A")])⟩))).messages
      ≠ [] := by
  have h1 : (run State.init
        [.changeText "a", .send, .changeText "b", .send,
         .settle 1 (.resolved ⟨200, some (.obj [("response", .str "B")])⟩)]).messages
      = [{ text := .str "a", isUser := true }, { text := .str "b", isUser := true },
         { text := .str "B", isUser := false }] := rfl
  have h2 : (step
        (run State.init
          [.changeText "a", .send, .changeText "b", .send,
           .settle 1 (.resolved ⟨200, some (.obj [("response", .str "B")])⟩)])
        (.settle 0 (.resolved ⟨200, some (.obj [("response", .str "A")])⟩))).messages
      = [{ text := .str "a", isUser := true }, { text := .str "A", isUser := false }] := rfl
  refine ⟨h1, h2, ?_, ?_⟩
  · rw [h1, h2]
    rintro ⟨t, ht⟩
    simp at ht
  · rw [h2]
    simp

/-- C7 (amended): over every execution from the initial screen in which no
non-blank send is issued while an earlier request is in flight (any
interleaving of typing, sends, settlements with any outcome, clear, theme
toggles and scroll events, a clear while a request is in flight included),
every step either appends to the message list (the previous list is an initial
segment of the new one) or resets it to empty. -/
theorem C7_append_or_reset (es : List Event) (e : Event)
    (h : sequential State.init (es ++ [e]) = true) :
    (run State.init es).messages <+: (run State.init (es ++ [e])).messages ∨
    (run State.init (es ++ [e])).messages = [] := by
  rw [sequential_append, Bool.and_eq_true] at h
  have ha : e.allowed (run State.init es) = true := by
    have := h.2
    simpa [sequential] using this
  have hI : SingleFlight (run State.init es) :=
    singleFlight_run es State.init (Or.inl rfl) h.1
  have hrun : run State.init (es ++ [e]) = step (run State.init es) e := by
    rw [run_append]
    rfl
  rw [hrun]
  exact step_appends_or_clears _ e hI ha

/-- C7 witness: send "a", clear while the request is in flight, then the
request settles. -/
theorem C7_append_or_reset_witness :
    (run State.init [.changeText "a", .send, .clear]).messages
      <+: (run State.init
        ([.changeText "a", .send, .clear] ++ [.settle 0 .rejected])).messages ∨
    (run State.init
        ([.changeText "a", .send, .clear] ++ [.settle 0 .rejected])).messages = [] :=
  C7_append_or_reset [.changeText "a", .send, .clear] (.settle 0 .rejected) (by decide)

end ChatApp
